import Mathlib

/-!
Shallow embedding of the jet-lag recovery tracker
(`src/pythonVariant/jetlag_recovery_tracker.py`).

Modelling conventions:
* Python floats are modelled as exact rationals (`ℚ`); every numeric literal in
  the scoring code is decimal, so the rational model follows the same branch
  structure as the float code on all inputs relevant to the statements below.
* Oura API dictionaries with optional keys become structures of `Option`
  fields; Python truthiness of a number is `x ≠ 0`, of a dictionary it is
  presence (`Option.isSome`), and `.get(key, 0)` defaults are applied at
  construction of `ActivityData`.
* Timestamps (`bedtime_start` / `bedtime_end`) are rational minutes since an
  epoch; `strftime "%H:%M"` truncation to whole minutes is the floor.
* The mutable `self.debug_components` attribute of `JetLagAnalyser` is made
  explicit: `calculate_recovery_score` maps an `AnalyserState` to the Python
  return value paired with the successor state.
-/

namespace JetLag

/-- Time of day, the meaning of an `"%H:%M"` string in the Python code. -/
structure TimeOfDay where
  hour : ℕ
  minute : ℕ
deriving DecidableEq

/-- Fields of an Oura sleep record used by the analyser; `none` models a
missing key (or, for the bedtimes, an unparsable timestamp). -/
structure SleepData where
  bedtime_start : Option ℚ
  bedtime_end : Option ℚ
  efficiency : Option ℚ
deriving DecidableEq

/-- Fields of an Oura readiness record used by the analyser. -/
structure ReadinessData where
  temperature_trend_deviation : Option ℚ
deriving DecidableEq

/-- Fields of an Oura daily-activity record used by the analyser; the Python
code reads them with `.get(key, 0)`, so a missing key is the value `0`. -/
structure ActivityData where
  total_calories : ℚ
  active_calories : ℚ
  training_volume : ℚ
deriving DecidableEq

/-- The `oura_data` dictionary handed to `calculate_recovery_score`
(the per-day bundle the spec calls `DailySignals`). -/
structure OuraData where
  sleep : Option SleepData
  readiness : Option ReadinessData
  resting_hr : Option ℚ
  activity : Option ActivityData
deriving DecidableEq

/-- One entry of the `component_scores` dictionary: the constructor is the
dictionary key, the arguments are the recorded diagnostic fields. -/
inductive ComponentEntry where
  | sleepAlignment (score : ℚ) (sleep_midpoint target_midpoint : TimeOfDay)
      (time_diff_hours : ℚ)
  | activityLoad (total_calories active_calories training_volume hr_adjustment : ℚ)
  | hrRecovery (score current_hr baseline_hr raw_deviation adjusted_deviation : ℚ)
  | tempAlignment (score deviation : ℚ)
  | sleepQuality (score efficiency baseline : ℚ)
deriving DecidableEq

/-- State of a `JetLagAnalyser` object: the constructor baselines together
with the `debug_components` attribute that `calculate_recovery_score`
assigns (modelled as the empty list before the first call). -/
structure AnalyserState where
  baseline_hr : ℚ
  baseline_sleep_efficiency : ℚ
  debug_components : List ComponentEntry
deriving DecidableEq

/-- Analyser with the constructor defaults `baseline_hr = 52.0` and
`baseline_sleep_efficiency = 88.0`. -/
def defaultAnalyser : AnalyserState :=
  ⟨52, 88, []⟩

/-- Python truthiness of an optional float (`if resting_hr:` and the members
of `any([...])`). -/
def truthyQ : Option ℚ → Bool
  | none => false
  | some x => if x = 0 then false else true

/-- Helper `time_to_minutes` nested inside `time_difference_hours`. -/
def time_to_minutes (t : TimeOfDay) : ℕ :=
  t.hour * 60 + t.minute

/-- Circular time difference in hours (`JetLagAnalyser.time_difference_hours`,
lines 343-352). -/
def time_difference_hours (time1 time2 : TimeOfDay) : ℚ :=
  let minutes1 : ℤ := time_to_minutes time1
  let minutes2 : ℤ := time_to_minutes time2
  let diff : ℤ := |minutes1 - minutes2|
  ((min diff (1440 - diff) : ℤ) : ℚ) / 60

/-- Sleep midpoint (`JetLagAnalyser.calculate_sleep_midpoint`, lines 326-334):
start plus half the duration, rendered as a time of day. -/
def calculate_sleep_midpoint (sleep_data : SleepData) : Option TimeOfDay :=
  match sleep_data.bedtime_start, sleep_data.bedtime_end with
  | some s, some e =>
    let midpoint : ℚ := s + (e - s) / 2
    let m : ℕ := (⌊midpoint⌋ % 1440).toNat
    some ⟨m / 60, m % 60⟩
  | _, _ => none

/-- Target sleep midpoint (`JetLagAnalyser.adjusted_optimal_midpoint`,
lines 336-341); the timezone-shift parameter is deliberately ignored and the
result is always the string `"03:00"`. -/
def adjusted_optimal_midpoint (timezone_shift : ℤ) : TimeOfDay :=
  ⟨3, 0⟩

/-- Alignment scoring curve, inline in `calculate_recovery_score`
(lines 374-380); `3/2` is the literal `1.5`. -/
def alignmentCurve (time_diff : ℚ) : ℚ :=
  if time_diff ≤ 3/2 then 100
  else if time_diff ≤ 3 then 100 - (time_diff - 3/2) * 40
  else max 0 (100 - time_diff * 15)

/-- Real-valued copy of `alignmentCurve`, used only to state (dis)continuity of
the scoring curve at its breakpoints; `alignmentCurve_cast` below ties it to
the executable rational curve used by the scorer. -/
noncomputable def alignmentCurveR (time_diff : ℝ) : ℝ :=
  if time_diff ≤ 3/2 then 100
  else if time_diff ≤ 3 then 100 - (time_diff - 3/2) * 40
  else max 0 (100 - time_diff * 15)

/-- Body-clock alignment block of `calculate_recovery_score` (lines 366-390):
`some (score, entries)` when the factor is evaluated, `none` when skipped. -/
def alignmentFactor (a : AnalyserState) (oura : OuraData) (timezone_shift : ℤ) :
    Option (ℚ × List ComponentEntry) :=
  match oura.sleep with
  | none => none
  | some sleep_data =>
    if sleep_data.bedtime_start.isSome && sleep_data.bedtime_end.isSome then
      match calculate_sleep_midpoint sleep_data with
      | none => none
      | some sleep_midpoint =>
        let target_midpoint := adjusted_optimal_midpoint timezone_shift
        let time_diff := time_difference_hours sleep_midpoint target_midpoint
        let alignment := alignmentCurve time_diff
        some (alignment,
          [ComponentEntry.sleepAlignment alignment sleep_midpoint target_midpoint time_diff])
    else none

/-- Heart-rate recovery block of `calculate_recovery_score` (lines 392-435);
the first list entry is the `activity_load` diagnostic, recorded before
`hr_recovery` exactly when activity data is present. -/
def hrFactor (a : AnalyserState) (oura : OuraData) : Option (ℚ × List ComponentEntry) :=
  match oura.resting_hr with
  | none => none
  | some resting_hr =>
    if resting_hr = 0 then none
    else
      let hr_deviation := |resting_hr - a.baseline_hr|
      let activity : ℚ × List ComponentEntry :=
        match oura.activity with
        | none => (0, [])
        | some activity_data =>
          let activity_adjustment : ℚ :=
            if 3000 < activity_data.total_calories ∨ 800 < activity_data.active_calories ∨
                300 < activity_data.training_volume then 5
            else if 2500 < activity_data.total_calories ∨ 500 < activity_data.active_calories ∨
                200 < activity_data.training_volume then 3
            else 0
          (activity_adjustment,
            [ComponentEntry.activityLoad activity_data.total_calories
              activity_data.active_calories activity_data.training_volume activity_adjustment])
      let adjusted_deviation := max 0 (hr_deviation - activity.1)
      let hr_recovery := if adjusted_deviation ≤ 5 then (100 : ℚ)
        else max 0 (100 - (adjusted_deviation - 5) * 8)
      some (hr_recovery,
        activity.2 ++ [ComponentEntry.hrRecovery hr_recovery resting_hr a.baseline_hr
          hr_deviation adjusted_deviation])

/-- Temperature-rhythm block of `calculate_recovery_score` (lines 437-452);
`1/10` is the literal `0.1`. -/
def tempFactor (oura : OuraData) : Option (ℚ × List ComponentEntry) :=
  match oura.readiness with
  | none => none
  | some readiness_data =>
    match readiness_data.temperature_trend_deviation with
    | none => none
    | some temp_deviation =>
      let temp_alignment := if |temp_deviation| ≤ 1/10 then (100 : ℚ)
        else max 0 (100 - (|temp_deviation| - 1/10) * 200)
      some (temp_alignment, [ComponentEntry.tempAlignment temp_alignment temp_deviation])

/-- Sleep-efficiency block of `calculate_recovery_score` (lines 454-465); the
efficiency must be truthy (present and nonzero). -/
def sleepQualityFactor (a : AnalyserState) (oura : OuraData) :
    Option (ℚ × List ComponentEntry) :=
  match oura.sleep with
  | none => none
  | some sleep_data =>
    match sleep_data.efficiency with
    | none => none
    | some efficiency =>
      if efficiency = 0 then none
      else
        let sleep_quality := min 100 (efficiency / a.baseline_sleep_efficiency * 100)
        some (sleep_quality,
          [ComponentEntry.sleepQuality sleep_quality efficiency a.baseline_sleep_efficiency])

/-- Contribution of one factor block to the running accumulators: an evaluated
factor adds `score × weight` to `weighted_score`, `weight` to `total_weight`
and its entries to `component_scores`; a skipped factor adds nothing. -/
def contributionOf (factor : Option (ℚ × List ComponentEntry)) (weight : ℚ) :
    ℚ × ℚ × List ComponentEntry :=
  match factor with
  | some (s, entries) => (s * weight, weight, entries)
  | none => (0, 0, [])

/-- The weights are `2/5 = 0.4`, `1/4 = 0.25`, `1/5 = 0.2`, `3/20 = 0.15`; the
guard threshold is `3/10 = 0.3`.
`JetLagAnalyser.calculate_recovery_score` (lines 354-472), as a map from the
analyser state to the Python return value paired with the successor state
(the method assigns `self.debug_components` before returning). -/
def calculate_recovery_score (a : AnalyserState) (oura : OuraData)
    (timezone_shift : ℤ) (days_since_travel : ℤ) : Option ℚ × AnalyserState :=
  if days_since_travel = 0 then (some 100, a)
  else if !(oura.sleep.isSome || oura.readiness.isSome || truthyQ oura.resting_hr) then
    (none, a)
  else
    let alignPart := contributionOf (alignmentFactor a oura timezone_shift) (2/5)
    let hrPart := contributionOf (hrFactor a oura) (1/4)
    let tempPart := contributionOf (tempFactor oura) (1/5)
    let sqPart := contributionOf (sleepQualityFactor a oura) (3/20)
    let weighted_score := alignPart.1 + hrPart.1 + tempPart.1 + sqPart.1
    let total_weight := alignPart.2.1 + hrPart.2.1 + tempPart.2.1 + sqPart.2.1
    let component_scores := alignPart.2.2 ++ hrPart.2.2 ++ tempPart.2.2 ++ sqPart.2.2
    let final_score := if 3/10 < total_weight then some (weighted_score / total_weight) else none
    (final_score, ⟨a.baseline_hr, a.baseline_sleep_efficiency, component_scores⟩)

/-- List of `(score, weight)` pairs of the factors the scorer evaluates, in
evaluation order; this is the index set of the spec's renormalised weighted
average `Σ(score × weight) / Σ(weight)`. -/
def specFactors (a : AnalyserState) (oura : OuraData) (shift : ℤ) : List (ℚ × ℚ) :=
  (match alignmentFactor a oura shift with
   | some (s, _) => [(s, 2/5)]
   | none => []) ++
  (match hrFactor a oura with
   | some (s, _) => [(s, 1/4)]
   | none => []) ++
  (match tempFactor oura with
   | some (s, _) => [(s, 1/5)]
   | none => []) ++
  (match sleepQualityFactor a oura with
   | some (s, _) => [(s, 3/20)]
   | none => [])

/-- Combined weight of the evaluated factors, per the spec's words. -/
def specWeightSum (a : AnalyserState) (oura : OuraData) (shift : ℤ) : ℚ :=
  ((specFactors a oura shift).map Prod.snd).sum

/-- Sum over evaluated factors of `score × weight`, per the spec's words. -/
def specScoreSum (a : AnalyserState) (oura : OuraData) (shift : ℤ) : ℚ :=
  ((specFactors a oura shift).map fun p => p.1 * p.2).sum

/-- Activity allowance per the spec's words (section 4.3 of the spec). -/
def specAllowance : Option ActivityData → ℚ
  | none => 0
  | some act =>
    if 3000 < act.total_calories ∨ 800 < act.active_calories ∨ 300 < act.training_volume then 5
    else if 2500 < act.total_calories ∨ 500 < act.active_calories ∨ 200 < act.training_volume then 3
    else 0

/-- Heart-rate score per the spec's words: adjusted deviation
`max 0 (|hr − baseline| − allowance)`, then `100` when at most `5`, else
`100 − (adjusted − 5) × 8` floored at `0`. -/
def specHrScore (baseline hr : ℚ) (act : Option ActivityData) : ℚ :=
  let adjusted := max 0 (|hr - baseline| - specAllowance act)
  if adjusted ≤ 5 then 100 else max 0 (100 - (adjusted - 5) * 8)

/-- A candidate record carrying its own date (the `day` key of an Oura record,
`""` when the key is missing) plus its payload. -/
structure DatedRecord (α : Type) where
  day : String
  payload : α
deriving DecidableEq

/-- Record reconciliation, the shared selection logic of
`OuraAPIClient.get_sleep_data` (lines 195-208), `get_readiness_data`
(lines 238-246) and `get_activity_data`: first exact date match in source
order, else the first candidate, else `none`. -/
def reconcile {α : Type} (date : String) (records : List (DatedRecord α)) :
    Option (DatedRecord α) :=
  match records.find? (fun r => r.day == date) with
  | some r => some r
  | none => records.head?

/-! ### Helper lemmas -/

lemma alignmentFactor_none_of_no_sleep (a : AnalyserState) (oura : OuraData) (shift : ℤ)
    (h : oura.sleep = none) : alignmentFactor a oura shift = none := by
  simp [alignmentFactor, h]

lemma sleepQualityFactor_none_of_no_sleep (a : AnalyserState) (oura : OuraData)
    (h : oura.sleep = none) : sleepQualityFactor a oura = none := by
  simp [sleepQualityFactor, h]

lemma tempFactor_none_of_no_readiness (oura : OuraData)
    (h : oura.readiness = none) : tempFactor oura = none := by
  simp [tempFactor, h]

lemma hrFactor_none_of_falsy (a : AnalyserState) (oura : OuraData)
    (h : truthyQ oura.resting_hr = false) : hrFactor a oura = none := by
  cases hr : oura.resting_hr with
  | none => simp [hrFactor, hr]
  | some x =>
    rw [hr] at h
    unfold truthyQ at h
    by_cases hx : x = 0
    · simp [hrFactor, hr, hx]
    · simp [hx] at h

/-! ### C3: day offset 0 -/

/-- C3: for every input bundle and timezone shift, `calculate_recovery_score`
at day offset `0` returns exactly `100.0` and leaves the analyser state
untouched (no factor is evaluated, no debug components are written). -/
theorem C3_day_zero_always_100 (a : AnalyserState) (oura : OuraData) (shift : ℤ) :
    calculate_recovery_score a oura shift 0 = (some 100, a) := by
  simp [calculate_recovery_score]

/-! ### C10: timezone-shift independence -/

lemma alignmentFactor_shift_irrelevant (a : AnalyserState) (oura : OuraData) (s1 s2 : ℤ) :
    alignmentFactor a oura s1 = alignmentFactor a oura s2 := by
  simp [alignmentFactor, adjusted_optimal_midpoint]

/-- C10: the target sleep midpoint is `03:00` for every timezone shift, and
consequently `calculate_recovery_score` returns the same result for any two
timezone-shift values on otherwise identical inputs. -/
theorem C10_shift_independent :
    (∀ shift : ℤ, adjusted_optimal_midpoint shift = ⟨3, 0⟩) ∧
    ∀ (a : AnalyserState) (oura : OuraData) (s1 s2 day : ℤ),
      calculate_recovery_score a oura s1 day = calculate_recovery_score a oura s2 day := by
  refine ⟨fun _ => rfl, fun a oura s1 s2 day => ?_⟩
  simp [calculate_recovery_score, alignmentFactor_shift_irrelevant a oura s1 s2]

/-! ### C4: record reconciliation -/

/-- C4: `reconcile` returns the first candidate (in source order) whose date
equals the target; with no exact match it returns the first candidate of the
sequence regardless of date distance; on an empty sequence it signals no data;
and on the concrete example (target `2024-01-10`, candidates dated
`2024-01-09` and `2024-01-11`) it returns the `2024-01-09` record. -/
theorem C4_reconcile_first_match :
    (∀ (α : Type) (date : String) (xs ys : List (DatedRecord α)) (r : DatedRecord α),
        (∀ x ∈ xs, x.day ≠ date) → r.day = date →
        reconcile date (xs ++ r :: ys) = some r) ∧
    (∀ (α : Type) (date : String) (r : DatedRecord α) (rest : List (DatedRecord α)),
        (∀ x ∈ r :: rest, x.day ≠ date) →
        reconcile date (r :: rest) = some r) ∧
    (∀ (α : Type) (date : String), reconcile date ([] : List (DatedRecord α)) = none) ∧
    reconcile "2024-01-10" [(⟨"2024-01-09", 1⟩ : DatedRecord ℕ), ⟨"2024-01-11", 2⟩] =
      some ⟨"2024-01-09", 1⟩ := by
  refine ⟨?_, ?_, fun α date => rfl, by decide⟩
  · intro α date xs ys r hxs hr
    unfold reconcile
    have hfind : (xs ++ r :: ys).find? (fun x => x.day == date) = some r := by
      induction xs with
      | nil => simp [List.find?_cons, hr]
      | cons head tail ih =>
        have hh : (head.day == date) = false :=
          beq_eq_false_iff_ne.mpr (hxs head (by simp))
        rw [List.cons_append, List.find?_cons, hh]
        exact ih fun x hx => hxs x (by simp [hx])
    rw [hfind]
  · intro α date r rest hall
    unfold reconcile
    have hfind : (r :: rest).find? (fun x => x.day == date) = none :=
      List.find?_eq_none.mpr fun x hx => by
        simp only [beq_iff_eq]
        exact hall x hx
    rw [hfind]
    rfl

/-- C4 witness: concrete application of the reconciliation theorem on the
spec's example, hypotheses discharged by evaluation. -/
theorem C4_reconcile_first_match_witness :
    (∀ x ∈ ([⟨"2024-01-09", 1⟩, ⟨"2024-01-11", 2⟩] : List (DatedRecord ℕ)),
        x.day ≠ "2024-01-10") ∧
    reconcile "2024-01-10" ([⟨"2024-01-09", 1⟩, ⟨"2024-01-11", 2⟩] : List (DatedRecord ℕ)) =
      some ⟨"2024-01-09", 1⟩ :=
  ⟨by decide,
   C4_reconcile_first_match.2.1 ℕ "2024-01-10" ⟨"2024-01-09", 1⟩ [⟨"2024-01-11", 2⟩]
     (by decide)⟩

/-! ### C7: circular time difference -/

/-- C7: for valid times of day the circular difference is symmetric and lies
in `[0, 12]` hours; concretely `diff 23:30 00:30 = 1`, `diff 00:00 12:00 = 12`
and `diff 03:00 03:00 = 0`. -/
theorem C7_circular_difference :
    (∀ t1 t2 : TimeOfDay, t1.hour ≤ 23 → t1.minute ≤ 59 → t2.hour ≤ 23 → t2.minute ≤ 59 →
        time_difference_hours t1 t2 = time_difference_hours t2 t1 ∧
        0 ≤ time_difference_hours t1 t2 ∧ time_difference_hours t1 t2 ≤ 12) ∧
    time_difference_hours ⟨23, 30⟩ ⟨0, 30⟩ = 1 ∧
    time_difference_hours ⟨0, 0⟩ ⟨12, 0⟩ = 12 ∧
    time_difference_hours ⟨3, 0⟩ ⟨3, 0⟩ = 0 := by
  refine ⟨?_, by norm_num [time_difference_hours, time_to_minutes],
    by norm_num [time_difference_hours, time_to_minutes],
    by norm_num [time_difference_hours, time_to_minutes]⟩
  intro t1 t2 h1 h2 h3 h4
  have hb1 : (time_to_minutes t1 : ℤ) ≤ 1439 := by
    unfold time_to_minutes; push_cast; omega
  have hb2 : (time_to_minutes t2 : ℤ) ≤ 1439 := by
    unfold time_to_minutes; push_cast; omega
  have hn1 : (0 : ℤ) ≤ time_to_minutes t1 := Int.natCast_nonneg _
  have hn2 : (0 : ℤ) ≤ time_to_minutes t2 := Int.natCast_nonneg _
  refine ⟨?_, ?_, ?_⟩
  · simp only [time_difference_hours]
    rw [abs_sub_comm]
  all_goals
    simp only [time_difference_hours]
    have hd0 : (0 : ℤ) ≤ |(time_to_minutes t1 : ℤ) - time_to_minutes t2| := abs_nonneg _
    have hdle : |(time_to_minutes t1 : ℤ) - time_to_minutes t2| ≤ 1439 :=
      abs_le.mpr ⟨by omega, by omega⟩
  · have hmin : (0 : ℤ) ≤
        min |(time_to_minutes t1 : ℤ) - time_to_minutes t2|
          (1440 - |(time_to_minutes t1 : ℤ) - time_to_minutes t2|) :=
      le_min hd0 (by omega)
    have : (0 : ℚ) ≤
        ((min |(time_to_minutes t1 : ℤ) - time_to_minutes t2|
          (1440 - |(time_to_minutes t1 : ℤ) - time_to_minutes t2|) : ℤ) : ℚ) := by
      exact_mod_cast hmin
    positivity
  · have hmin : min |(time_to_minutes t1 : ℤ) - time_to_minutes t2|
        (1440 - |(time_to_minutes t1 : ℤ) - time_to_minutes t2|) ≤ 720 := by
      rcases le_total |(time_to_minutes t1 : ℤ) - time_to_minutes t2|
          (1440 - |(time_to_minutes t1 : ℤ) - time_to_minutes t2|) with hc | hc
      · calc min |(time_to_minutes t1 : ℤ) - time_to_minutes t2|
              (1440 - |(time_to_minutes t1 : ℤ) - time_to_minutes t2|) ≤ _ :=
            min_le_left _ _
          _ ≤ 720 := by omega
      · calc min |(time_to_minutes t1 : ℤ) - time_to_minutes t2|
              (1440 - |(time_to_minutes t1 : ℤ) - time_to_minutes t2|) ≤ _ :=
            min_le_right _ _
          _ ≤ 720 := by omega
    have hq : ((min |(time_to_minutes t1 : ℤ) - time_to_minutes t2|
        (1440 - |(time_to_minutes t1 : ℤ) - time_to_minutes t2|) : ℤ) : ℚ) ≤ 720 := by
      exact_mod_cast hmin
    linarith

/-- C7 witness: the symmetry and bounds applied at the concrete valid pair
`23:30` and `00:30`. -/
theorem C7_circular_difference_witness :
    time_difference_hours ⟨23, 30⟩ ⟨0, 30⟩ = time_difference_hours ⟨0, 30⟩ ⟨23, 30⟩ ∧
    0 ≤ time_difference_hours ⟨23, 30⟩ ⟨0, 30⟩ ∧
    time_difference_hours ⟨23, 30⟩ ⟨0, 30⟩ ≤ 12 :=
  C7_circular_difference.1 ⟨23, 30⟩ ⟨0, 30⟩ (by decide) (by decide) (by decide) (by decide)

/-! ### C5 and C6: the alignment scoring curve -/

/-- Scoring curve as the claim words it, with explicit interval guards
(`100` for `d ≤ 1.5`; `100 − (d − 1.5)·40` for `1.5 < d ≤ 3.0`;
`max 0 (100 − d·15)` for `d > 3.0`). -/
def claimAlignmentCurve (d : ℚ) : ℚ :=
  if d ≤ 3/2 then 100
  else if 3/2 < d ∧ d ≤ 3 then 100 - (d - 3/2) * 40
  else max 0 (100 - d * 15)

lemma alignmentCurve_eq_claim (d : ℚ) : alignmentCurve d = claimAlignmentCurve d := by
  unfold alignmentCurve claimAlignmentCurve
  by_cases h1 : d ≤ 3/2
  · rw [if_pos h1, if_pos h1]
  · by_cases h2 : d ≤ 3
    · rw [if_neg h1, if_neg h1, if_pos h2, if_pos ⟨not_le.mp h1, h2⟩]
    · rw [if_neg h1, if_neg h1, if_neg h2, if_neg (fun hc => h2 hc.2)]

lemma alignmentCurveR_apply_low (x : ℝ) (h : x ≤ 3/2) : alignmentCurveR x = 100 := by
  unfold alignmentCurveR
  rw [if_pos h]

lemma alignmentCurveR_apply_mid (x : ℝ) (h1 : ¬ x ≤ 3/2) (h2 : x ≤ 3) :
    alignmentCurveR x = 100 - (x - 3/2) * 40 := by
  unfold alignmentCurveR
  rw [if_neg h1, if_pos h2]

lemma alignmentCurveR_apply_high (x : ℝ) (h2 : 3 < x) :
    alignmentCurveR x = max 0 (100 - x * 15) := by
  unfold alignmentCurveR
  rw [if_neg (by push_neg; linarith), if_neg (not_le.mpr h2)]

lemma alignmentCurve_cast (q : ℚ) : alignmentCurveR (q : ℝ) = (alignmentCurve q : ℝ) := by
  have k32 : ((3/2 : ℚ) : ℝ) = 3/2 := by norm_num
  have k3 : ((3 : ℚ) : ℝ) = 3 := by norm_num
  unfold alignmentCurveR alignmentCurve
  by_cases h1 : q ≤ 3/2
  · have h1r : (q:ℝ) ≤ 3/2 := by
      rw [← k32]
      exact Rat.cast_le.mpr h1
    rw [if_pos h1, if_pos h1r]
    norm_num
  · have h1r : ¬ (q:ℝ) ≤ 3/2 := by
      rw [not_le] at h1 ⊢
      rw [← k32]
      exact Rat.cast_lt.mpr h1
    by_cases h2 : q ≤ 3
    · have h2r : (q:ℝ) ≤ 3 := by
        rw [← k3]
        exact Rat.cast_le.mpr h2
      rw [if_neg h1, if_neg h1r, if_pos h2, if_pos h2r]
      push_cast
      ring
    · have h2r : ¬ (q:ℝ) ≤ 3 := by
        rw [not_le] at h2 ⊢
        rw [← k3]
        exact Rat.cast_lt.mpr h2
      rw [if_neg h1, if_neg h1r, if_neg h2, if_neg h2r]
      rw [Rat.cast_max]
      push_cast
      ring_nf

lemma alignmentCurveR_contAt_low : ContinuousAt alignmentCurveR (3/2 : ℝ) := by
  rw [Metric.continuousAt_iff]
  intro ε hε
  refine ⟨min (ε/40) 1, lt_min (by positivity) one_pos, ?_⟩
  intro x hx
  rw [Real.dist_eq] at hx
  rw [Real.dist_eq, alignmentCurveR_apply_low (3/2) le_rfl]
  have hx1 : |x - 3/2| < ε/40 := lt_of_lt_of_le hx (min_le_left _ _)
  have hx2 : |x - 3/2| < 1 := lt_of_lt_of_le hx (min_le_right _ _)
  have hxr := (abs_lt.mp hx2).2
  by_cases h1 : x ≤ 3/2
  · rw [alignmentCurveR_apply_low x h1]
    simpa using hε
  · have h2 : x ≤ 3 := by push_neg at h1; linarith
    rw [alignmentCurveR_apply_mid x h1 h2]
    push_neg at h1
    have hpos : 0 ≤ (x - 3/2) * 40 := by nlinarith
    have habs : |100 - (x - 3/2) * 40 - 100| = (x - 3/2) * 40 := by
      rw [show (100:ℝ) - (x - 3/2) * 40 - 100 = -((x - 3/2) * 40) by ring, abs_neg,
        abs_of_nonneg hpos]
    rw [habs]
    have := (abs_lt.mp hx1).2
    linarith

lemma alignmentCurveR_not_contAt_break : ¬ ContinuousAt alignmentCurveR (3 : ℝ) := by
  intro hc
  rw [Metric.continuousAt_iff] at hc
  obtain ⟨δ, hδ, hcl⟩ := hc 1 one_pos
  have hm : (0:ℝ) < min δ 1 := lt_min hδ one_pos
  have hd : dist (3 + min δ 1 / 4) (3:ℝ) < δ := by
    rw [Real.dist_eq, show (3:ℝ) + min δ 1 / 4 - 3 = min δ 1 / 4 by ring,
      abs_of_pos (by positivity)]
    have := min_le_left δ (1:ℝ)
    linarith
  have hkey := hcl hd
  rw [Real.dist_eq] at hkey
  have hx3 : (3:ℝ) < 3 + min δ 1 / 4 := by linarith
  have hxu : (3:ℝ) + min δ 1 / 4 ≤ 3 + 1/4 := by
    have := min_le_right δ (1:ℝ)
    linarith
  have hfx : alignmentCurveR (3 + min δ 1 / 4) = 100 - (3 + min δ 1 / 4) * 15 := by
    rw [alignmentCurveR_apply_high _ hx3]
    exact max_eq_right (by nlinarith)
  have hf3 : alignmentCurveR 3 = 40 := by
    rw [alignmentCurveR_apply_mid 3 (by norm_num) le_rfl]
    norm_num
  rw [hfx, hf3] at hkey
  have := (abs_lt.mp hkey).2
  nlinarith

/-- C5 (amended): the alignment score is the claimed piecewise map; the curve
is continuous at the breakpoint `d = 1.5` but discontinuous at `d = 3.0`
(its value there is `40` while the right-hand branch tends to `55`); the real
curve used for the continuity statements agrees with the rational curve used
by the scorer. -/
theorem C5_alignment_curve_piecewise :
    (∀ d : ℚ, alignmentCurve d = claimAlignmentCurve d) ∧
    (∀ q : ℚ, alignmentCurveR (q : ℝ) = (alignmentCurve q : ℝ)) ∧
    ContinuousAt alignmentCurveR (3/2 : ℝ) ∧
    ¬ ContinuousAt alignmentCurveR (3 : ℝ) :=
  ⟨alignmentCurve_eq_claim, alignmentCurve_cast,
   alignmentCurveR_contAt_low, alignmentCurveR_not_contAt_break⟩

/-- C5 counterexample: the curve is not continuous at the breakpoint
`d = 3.0`, where its value is `40` yet points just above `3.0` score
`max 0 (100 − d·15)` close to `55` (at `d = 3.1` the score is `53.5`). -/
theorem C5_counterexample_discontinuous_at_3 :
    ¬ ContinuousAt alignmentCurveR (3 : ℝ) ∧
    alignmentCurve 3 = 40 ∧ alignmentCurve (31/10) = 107/2 :=
  ⟨alignmentCurveR_not_contAt_break,
   by norm_num [alignmentCurve], by norm_num [alignmentCurve]⟩

lemma alignmentCurve_anti_low (d1 d2 : ℚ) (h0 : 0 ≤ d1) (h12 : d1 ≤ d2) (h23 : d2 ≤ 3) :
    alignmentCurve d2 ≤ alignmentCurve d1 := by
  unfold alignmentCurve
  split_ifs <;> linarith

lemma alignmentCurve_anti_high (d1 d2 : ℚ) (h3 : 3 < d1) (h12 : d1 ≤ d2) :
    alignmentCurve d2 ≤ alignmentCurve d1 := by
  unfold alignmentCurve
  split_ifs <;> try linarith
  exact max_le_max le_rfl (by linarith)

/-- C6 (amended): the alignment curve is monotonically non-increasing on each
branch — on deviations in `[0, 3]` and on deviations above `3` — with
`score 1.5 = 100`, `score 3.0 = 40` and `score 10 = 0`; it is not
non-increasing across the `3.0` breakpoint (see the counterexample). -/
theorem C6_alignment_monotone_on_pieces :
    (∀ d1 d2 : ℚ, 0 ≤ d1 → d1 ≤ d2 → d2 ≤ 3 → alignmentCurve d2 ≤ alignmentCurve d1) ∧
    (∀ d1 d2 : ℚ, 3 < d1 → d1 ≤ d2 → alignmentCurve d2 ≤ alignmentCurve d1) ∧
    alignmentCurve (3/2) = 100 ∧ alignmentCurve 3 = 40 ∧ alignmentCurve 10 = 0 := by
  refine ⟨alignmentCurve_anti_low, alignmentCurve_anti_high, ?_, ?_, ?_⟩ <;>
    norm_num [alignmentCurve]

/-- C6 counterexample: the curve is not monotonically non-increasing over all
of `[0, ∞)`: it scores `40` at deviation `3.0` but `53.5` at the larger
deviation `3.1`. -/
theorem C6_counterexample_not_monotone :
    ¬ ∀ d1 d2 : ℚ, 0 ≤ d1 → d1 ≤ d2 → alignmentCurve d2 ≤ alignmentCurve d1 := by
  intro h
  have h1 := h 3 (31/10) (by norm_num) (by norm_num)
  have h2 : alignmentCurve 3 = 40 := by norm_num [alignmentCurve]
  have h3 : alignmentCurve (31/10) = 107/2 := by norm_num [alignmentCurve]
  rw [h2, h3] at h1
  norm_num at h1

/-- C6 witness: the in-branch monotonicity applied at the concrete pair
`2 ≤ 5/2` inside `[0, 3]`. -/
theorem C6_alignment_monotone_on_pieces_witness :
    ((0:ℚ) ≤ 2 ∧ (2:ℚ) ≤ 5/2 ∧ (5/2:ℚ) ≤ 3) ∧
    alignmentCurve (5/2) ≤ alignmentCurve 2 :=
  ⟨⟨by norm_num, by norm_num, by norm_num⟩,
   C6_alignment_monotone_on_pieces.1 2 (5/2) (by norm_num) (by norm_num) (by norm_num)⟩

/-! ### Combination lemmas -/

lemma specWeightSum_eq (a : AnalyserState) (oura : OuraData) (shift : ℤ) :
    specWeightSum a oura shift =
      (contributionOf (alignmentFactor a oura shift) (2/5)).2.1 +
      (contributionOf (hrFactor a oura) (1/4)).2.1 +
      (contributionOf (tempFactor oura) (1/5)).2.1 +
      (contributionOf (sleepQualityFactor a oura) (3/20)).2.1 := by
  rcases hA : alignmentFactor a oura shift with _ | ⟨sA, cA⟩ <;>
    rcases hB : hrFactor a oura with _ | ⟨sB, cB⟩ <;>
      rcases hC : tempFactor oura with _ | ⟨sC, cC⟩ <;>
        rcases hD : sleepQualityFactor a oura with _ | ⟨sD, cD⟩ <;>
          simp [specWeightSum, specFactors, contributionOf, hA, hB, hC, hD] <;> ring

lemma specScoreSum_eq (a : AnalyserState) (oura : OuraData) (shift : ℤ) :
    specScoreSum a oura shift =
      (contributionOf (alignmentFactor a oura shift) (2/5)).1 +
      (contributionOf (hrFactor a oura) (1/4)).1 +
      (contributionOf (tempFactor oura) (1/5)).1 +
      (contributionOf (sleepQualityFactor a oura) (3/20)).1 := by
  rcases hA : alignmentFactor a oura shift with _ | ⟨sA, cA⟩ <;>
    rcases hB : hrFactor a oura with _ | ⟨sB, cB⟩ <;>
      rcases hC : tempFactor oura with _ | ⟨sC, cC⟩ <;>
        rcases hD : sleepQualityFactor a oura with _ | ⟨sD, cD⟩ <;>
          simp [specScoreSum, specFactors, contributionOf, hA, hB, hC, hD] <;> ring

lemma recovery_main (a : AnalyserState) (oura : OuraData) (shift day : ℤ) (h : day ≠ 0)
    (hg : (oura.sleep.isSome || oura.readiness.isSome || truthyQ oura.resting_hr) = true) :
    calculate_recovery_score a oura shift day =
      ((if 3/10 < specWeightSum a oura shift then
          some (specScoreSum a oura shift / specWeightSum a oura shift) else none),
       ⟨a.baseline_hr, a.baseline_sleep_efficiency,
        (contributionOf (alignmentFactor a oura shift) (2/5)).2.2 ++
        (contributionOf (hrFactor a oura) (1/4)).2.2 ++
        (contributionOf (tempFactor oura) (1/5)).2.2 ++
        (contributionOf (sleepQualityFactor a oura) (3/20)).2.2⟩) := by
  rw [specWeightSum_eq, specScoreSum_eq]
  unfold calculate_recovery_score
  rw [if_neg h, hg]
  simp

lemma recovery_no_data (a : AnalyserState) (oura : OuraData) (shift day : ℤ) (h : day ≠ 0)
    (hg : (oura.sleep.isSome || oura.readiness.isSome || truthyQ oura.resting_hr) = false) :
    calculate_recovery_score a oura shift day = (none, a) ∧
    specWeightSum a oura shift = 0 := by
  cases hsleep : oura.sleep with
  | some sd => rw [hsleep] at hg; simp at hg
  | none =>
    cases hread : oura.readiness with
    | some r => rw [hread] at hg; simp at hg
    | none =>
      have htr : truthyQ oura.resting_hr = false := by
        rw [hsleep, hread] at hg
        simpa using hg
      constructor
      · unfold calculate_recovery_score
        rw [if_neg h]
        simp [hsleep, hread, htr]
      · rw [specWeightSum_eq,
          alignmentFactor_none_of_no_sleep a oura shift hsleep,
          sleepQualityFactor_none_of_no_sleep a oura hsleep,
          tempFactor_none_of_no_readiness oura hread,
          hrFactor_none_of_falsy a oura htr]
        simp [contributionOf]

lemma recovery_fst (a : AnalyserState) (oura : OuraData) (shift day : ℤ) (h : day ≠ 0) :
    (calculate_recovery_score a oura shift day).1 =
      if 3/10 < specWeightSum a oura shift then
        some (specScoreSum a oura shift / specWeightSum a oura shift) else none := by
  cases hg : (oura.sleep.isSome || oura.readiness.isSome || truthyQ oura.resting_hr) with
  | true =>
    rw [recovery_main a oura shift day h hg]
  | false =>
    obtain ⟨h1, h2⟩ := recovery_no_data a oura shift day h hg
    rw [h1, h2]
    norm_num

/-! ### Concrete inputs used below -/

/-- Daily bundle with only a sleep record: bedtimes at minutes 60 and 300
(midpoint 03:00) and efficiency 88. -/
def ouraAlignSq : OuraData :=
  ⟨some ⟨some 60, some 300, some 88⟩, none, none, none⟩

/-- Daily bundle with only a readiness record carrying temperature deviation
`0.5`. -/
def ouraTempOnly : OuraData :=
  ⟨none, some ⟨some (1/2)⟩, none, none⟩

/-- Daily bundle with only a resting heart rate of 52 bpm. -/
def ouraHr52 : OuraData :=
  ⟨none, none, some 52, none⟩

/-- Daily bundle with only a resting heart rate of 65 bpm. -/
def ouraHr65 : OuraData :=
  ⟨none, none, some 65, none⟩

/-- Daily bundle with a resting heart rate of 65 bpm and an activity record
with 900 active calories. -/
def ouraHr65Act : OuraData :=
  ⟨none, none, some 65, some ⟨0, 900, 0⟩⟩

/-! ### C1: weight-renormalised average -/

/-- C1: for every input with nonzero day offset, when the combined weight of
the evaluated factors exceeds `0.3` the returned overall score is
`Σ(score × weight) / Σ(weight)` over exactly the evaluated factors; in
particular with exactly the alignment and sleep-quality factors evaluated the
score is `(alignment·0.4 + sleepQuality·0.15) / 0.55`. -/
theorem C1_weighted_renormalized_average :
    (∀ (a : AnalyserState) (oura : OuraData) (shift day : ℤ), day ≠ 0 →
        3/10 < specWeightSum a oura shift →
        (calculate_recovery_score a oura shift day).1 =
          some (specScoreSum a oura shift / specWeightSum a oura shift)) ∧
    (∀ (a : AnalyserState) (oura : OuraData) (shift day : ℤ)
        (sA sQ : ℚ) (cA cQ : List ComponentEntry), day ≠ 0 →
        alignmentFactor a oura shift = some (sA, cA) →
        hrFactor a oura = none →
        tempFactor oura = none →
        sleepQualityFactor a oura = some (sQ, cQ) →
        (calculate_recovery_score a oura shift day).1 =
          some ((sA * (2/5) + sQ * (3/20)) / (11/20))) := by
  constructor
  · intro a oura shift day h hw
    rw [recovery_fst a oura shift day h, if_pos hw]
  · intro a oura shift day sA sQ cA cQ h hA hB hC hD
    have hw : specWeightSum a oura shift = 11/20 := by
      rw [specWeightSum_eq, hA, hB, hC, hD]
      norm_num [contributionOf]
    have hs : specScoreSum a oura shift = sA * (2/5) + sQ * (3/20) := by
      rw [specScoreSum_eq, hA, hB, hC, hD]
      simp [contributionOf]
    rw [recovery_fst a oura shift day h, hw, hs,
      if_pos (show (3:ℚ)/10 < 11/20 by norm_num)]

/-- C1 witness: concrete bundle with exactly alignment (score 100) and
sleep-quality (score 100) evaluated; the returned score is
`(100·0.4 + 100·0.15)/0.55`. -/
theorem C1_weighted_renormalized_average_witness :
    (1:ℤ) ≠ 0 ∧
    alignmentFactor defaultAnalyser ouraAlignSq 0 =
      some (100, [ComponentEntry.sleepAlignment 100 ⟨3, 0⟩ ⟨3, 0⟩ 0]) ∧
    hrFactor defaultAnalyser ouraAlignSq = none ∧
    tempFactor ouraAlignSq = none ∧
    sleepQualityFactor defaultAnalyser ouraAlignSq =
      some (100, [ComponentEntry.sleepQuality 100 88 88]) ∧
    (calculate_recovery_score defaultAnalyser ouraAlignSq 0 1).1 =
      some ((100 * (2/5) + 100 * (3/20)) / (11/20)) := by
  have hA : alignmentFactor defaultAnalyser ouraAlignSq 0 =
      some (100, [ComponentEntry.sleepAlignment 100 ⟨3, 0⟩ ⟨3, 0⟩ 0]) := by
    norm_num [alignmentFactor, ouraAlignSq, defaultAnalyser, calculate_sleep_midpoint,
      adjusted_optimal_midpoint, time_difference_hours, time_to_minutes, alignmentCurve]
    decide
  have hD : sleepQualityFactor defaultAnalyser ouraAlignSq =
      some (100, [ComponentEntry.sleepQuality 100 88 88]) := by
    norm_num [sleepQualityFactor, ouraAlignSq, defaultAnalyser]
  exact ⟨by norm_num, hA, rfl, rfl, hD,
    C1_weighted_renormalized_average.2 defaultAnalyser ouraAlignSq 0 1 100 100
      [ComponentEntry.sleepAlignment 100 ⟨3, 0⟩ ⟨3, 0⟩ 0]
      [ComponentEntry.sleepQuality 100 88 88] (by norm_num) hA rfl rfl hD⟩

/-! ### C2: when the overall score is null -/

/-- C2 (amended): the returned overall score is null iff the day offset is
nonzero and the combined weight of the evaluated factors is at most `0.3`
(at day offset 0 the score is `100.0`, not null, so the claim's "or the day
offset is 0" direction fails); in particular an input where only the
temperature factor (weight `0.2`) is evaluated yields null. -/
theorem C2_null_iff_low_weight :
    (∀ (a : AnalyserState) (oura : OuraData) (shift day : ℤ),
        (calculate_recovery_score a oura shift day).1 = none ↔
          day ≠ 0 ∧ specWeightSum a oura shift ≤ 3/10) ∧
    (∀ (a : AnalyserState) (oura : OuraData) (shift day : ℤ)
        (sT : ℚ) (cT : List ComponentEntry), day ≠ 0 →
        alignmentFactor a oura shift = none →
        hrFactor a oura = none →
        tempFactor oura = some (sT, cT) →
        sleepQualityFactor a oura = none →
        (calculate_recovery_score a oura shift day).1 = none) := by
  constructor
  · intro a oura shift day
    by_cases h : day = 0
    · subst h
      simp [calculate_recovery_score]
    · rw [recovery_fst a oura shift day h]
      by_cases hw : 3/10 < specWeightSum a oura shift
      · rw [if_pos hw]
        simp [h, not_le.mpr hw]
      · rw [if_neg hw]
        simp [h, not_lt.mp hw]
  · intro a oura shift day sT cT h hA hB hC hD
    have hw : specWeightSum a oura shift = 1/5 := by
      rw [specWeightSum_eq, hA, hB, hC, hD]
      norm_num [contributionOf]
    rw [recovery_fst a oura shift day h, hw]
    norm_num

/-- C2 counterexample: at day offset 0 the claimed right-hand side holds (the
day offset is 0, and the evaluated weight `0.2 ≤ 0.3` as well) yet the score
returned on the temperature-only bundle is `100.0`, not null, so the claimed
equivalence is false as stated. -/
theorem C2_counterexample_day_zero :
    ¬ (((calculate_recovery_score defaultAnalyser ouraTempOnly 0 0).1 = none) ↔
        (specWeightSum defaultAnalyser ouraTempOnly 0 ≤ 3/10 ∨ (0:ℤ) = 0)) := by
  intro hiff
  have h100 : (calculate_recovery_score defaultAnalyser ouraTempOnly 0 0).1 = some 100 := by
    simp [calculate_recovery_score]
  have hnone := hiff.mpr (Or.inr rfl)
  rw [h100] at hnone
  exact Option.noConfusion hnone

/-- C2 witness: the temperature-only bundle (weight `0.2`) at day offset 1
yields a null overall score. -/
theorem C2_null_iff_low_weight_witness :
    (1:ℤ) ≠ 0 ∧
    tempFactor ouraTempOnly = some (20, [ComponentEntry.tempAlignment 20 (1/2)]) ∧
    alignmentFactor defaultAnalyser ouraTempOnly 0 = none ∧
    hrFactor defaultAnalyser ouraTempOnly = none ∧
    sleepQualityFactor defaultAnalyser ouraTempOnly = none ∧
    (calculate_recovery_score defaultAnalyser ouraTempOnly 0 1).1 = none := by
  have hT : tempFactor ouraTempOnly = some (20, [ComponentEntry.tempAlignment 20 (1/2)]) := by
    norm_num [tempFactor, ouraTempOnly, abs_of_pos]
  exact ⟨by norm_num, hT, rfl, rfl, rfl,
    C2_null_iff_low_weight.2 defaultAnalyser ouraTempOnly 0 1 20
      [ComponentEntry.tempAlignment 20 (1/2)] (by norm_num) rfl rfl hT rfl⟩

/-! ### C8: heart-rate factor -/

/-- C8 (amended): the heart-rate factor is evaluated whenever a nonzero
resting heart rate is present (activity data optional; a present-but-zero
value is treated as absent by the code's truthiness test, see the
counterexample), and its score is the spec formula
`max 0 (|hr − baseline| − allowance)` mapped through the 100-at-5-then-slope-8
curve; concretely with baseline 52: hr 52 scores 100, hr 65 with no activity
scores 36, and hr 65 with 900 active calories scores 76. -/
theorem C8_hr_factor_score :
    (∀ (a : AnalyserState) (oura : OuraData) (hr : ℚ),
        oura.resting_hr = some hr → hr ≠ 0 →
        (hrFactor a oura).map Prod.fst =
          some (specHrScore a.baseline_hr hr oura.activity)) ∧
    hrFactor defaultAnalyser ouraHr52 =
      some (100, [ComponentEntry.hrRecovery 100 52 52 0 0]) ∧
    hrFactor defaultAnalyser ouraHr65 =
      some (36, [ComponentEntry.hrRecovery 36 65 52 13 13]) ∧
    hrFactor defaultAnalyser ouraHr65Act =
      some (76, [ComponentEntry.activityLoad 0 900 0 5,
        ComponentEntry.hrRecovery 76 65 52 13 8]) := by
  refine ⟨?_, ?_, ?_, ?_⟩
  · intro a oura hr hhr hne
    cases hact : oura.activity with
    | none => simp [hrFactor, hhr, hne, hact, specHrScore, specAllowance]
    | some ad => simp [hrFactor, hhr, hne, hact, specHrScore, specAllowance]
  · norm_num [hrFactor, ouraHr52, defaultAnalyser]
  · norm_num [hrFactor, ouraHr65, defaultAnalyser]
  · norm_num [hrFactor, ouraHr65Act, defaultAnalyser]

/-- C8 counterexample: a resting heart rate value that is present but `0.0`
is skipped by the code's truthiness test (`if resting_hr:`), so the factor is
not evaluated although a value is present. -/
theorem C8_counterexample_zero_hr :
    (⟨none, none, some 0, none⟩ : OuraData).resting_hr.isSome = true ∧
    hrFactor defaultAnalyser ⟨none, none, some 0, none⟩ = none :=
  ⟨rfl, rfl⟩

/-- C8 witness: the score formula applied at the concrete bundle with resting
heart rate 65 and no activity data. -/
theorem C8_hr_factor_score_witness :
    ouraHr65.resting_hr = some 65 ∧ (65:ℚ) ≠ 0 ∧
    (hrFactor defaultAnalyser ouraHr65).map Prod.fst =
      some (specHrScore defaultAnalyser.baseline_hr 65 ouraHr65.activity) :=
  ⟨rfl, by norm_num,
   C8_hr_factor_score.1 defaultAnalyser ouraHr65 65 rfl (by norm_num)⟩

/-! ### C9: factor breakdown and purity -/

/-- C9 (amended): on any scored day (nonzero offset, at least one signal
present) the method's return value carries only the optional overall score;
the factor breakdown is written to the analyser's `debug_components` field,
in evaluation order alignment, heart-rate (preceded by its activity-load
diagnostic when present), temperature, sleep-quality, with the baselines
unchanged.  The returned pair is a function of the arguments alone, but the
method is not pure in the claim's sense: it overwrites analyser state (see
the counterexample). -/
theorem C9_breakdown_in_state (a : AnalyserState) (oura : OuraData) (shift day : ℤ)
    (h : day ≠ 0)
    (hg : (oura.sleep.isSome || oura.readiness.isSome || truthyQ oura.resting_hr) = true) :
    calculate_recovery_score a oura shift day =
      ((if 3/10 < specWeightSum a oura shift then
          some (specScoreSum a oura shift / specWeightSum a oura shift) else none),
       ⟨a.baseline_hr, a.baseline_sleep_efficiency,
        (contributionOf (alignmentFactor a oura shift) (2/5)).2.2 ++
        (contributionOf (hrFactor a oura) (1/4)).2.2 ++
        (contributionOf (tempFactor oura) (1/5)).2.2 ++
        (contributionOf (sleepQualityFactor a oura) (3/20)).2.2⟩) := by
  have hmain := recovery_main a oura shift day h hg
  exact hmain

/-- C9 counterexample: on the temperature-only bundle the method's Python
return value is `None` — it carries no factor breakdown — while the evaluated
temperature factor appears as a mutation of the analyser's
`debug_components` field, so the scorer does write state outside its
arguments and return value. -/
theorem C9_counterexample_mutation :
    (calculate_recovery_score defaultAnalyser ouraTempOnly 0 1).1 = none ∧
    (calculate_recovery_score defaultAnalyser ouraTempOnly 0 1).2 ≠ defaultAnalyser := by
  have hT : tempFactor ouraTempOnly = some (20, [ComponentEntry.tempAlignment 20 (1/2)]) := by
    norm_num [tempFactor, ouraTempOnly, abs_of_pos]
  have hA : alignmentFactor defaultAnalyser ouraTempOnly 0 = none := rfl
  have hB : hrFactor defaultAnalyser ouraTempOnly = none := rfl
  have hD : sleepQualityFactor defaultAnalyser ouraTempOnly = none := rfl
  have hw : specWeightSum defaultAnalyser ouraTempOnly 0 = 1/5 := by
    rw [specWeightSum_eq, hT, hA, hB, hD]
    norm_num [contributionOf]
  have hmain := recovery_main defaultAnalyser ouraTempOnly 0 1 (by norm_num) rfl
  rw [hT, hA, hB, hD, hw] at hmain
  rw [hmain]
  constructor
  · norm_num
  · simp [defaultAnalyser, contributionOf]

/-- C9 witness: the amended breakdown-in-state theorem applied at the
temperature-only bundle on day 1. -/
theorem C9_breakdown_in_state_witness :
    (1:ℤ) ≠ 0 ∧
    (ouraTempOnly.sleep.isSome || ouraTempOnly.readiness.isSome ||
      truthyQ ouraTempOnly.resting_hr) = true ∧
    calculate_recovery_score defaultAnalyser ouraTempOnly 0 1 =
      ((if 3/10 < specWeightSum defaultAnalyser ouraTempOnly 0 then
          some (specScoreSum defaultAnalyser ouraTempOnly 0 /
            specWeightSum defaultAnalyser ouraTempOnly 0) else none),
       ⟨defaultAnalyser.baseline_hr, defaultAnalyser.baseline_sleep_efficiency,
        (contributionOf (alignmentFactor defaultAnalyser ouraTempOnly 0) (2/5)).2.2 ++
        (contributionOf (hrFactor defaultAnalyser ouraTempOnly) (1/4)).2.2 ++
        (contributionOf (tempFactor ouraTempOnly) (1/5)).2.2 ++
        (contributionOf (sleepQualityFactor defaultAnalyser ouraTempOnly) (3/20)).2.2⟩) :=
  ⟨by norm_num, rfl,
   C9_breakdown_in_state defaultAnalyser ouraTempOnly 0 1 (by norm_num) rfl⟩

end JetLag
